import Mathlib

/-!
Verification of the WatchDog event-to-log normalization and audit-attribution
pipeline (src/index.js) against its specification.

Shallow embedding notes:
* Strings are modelled by Lean `String`; a JavaScript `null`/`undefined` string
  field is modelled by `Option String` (with `""` available where only JS
  falsiness matters).
* Numeric timestamps (`Date.now()`, `createdTimestamp`) are `Int`
  milliseconds.
* The Discord collections returned by external fetches (audit-log entries,
  invites, permission overwrites) are modelled as lists in fetch order; a
  `Map`/`Collection` keyed by id is an association list with unique keys.
* External fallible calls are modelled by passing their result in explicitly
  (`Except`/parameters), so every handler is a pure function of its inputs.
-/

/-- JavaScript `x || d` for an optional string `x`: `null`/`undefined` and the
empty string are falsy and fall back to the default `d`. -/
def jsOrDefault (x : Option String) (d : String) : String :=
  match x with
  | none => d
  | some s => if s = "" then d else s

/-! ## Nickname history (`recordNickname`, `getNicknameHistory`, src/index.js 100-132)

The persistent store is `nicknameHistory[guildId][userId] : string[]`.  The
functions below embed the per-(guild,user) list manipulation; the surrounding
object bookkeeping only creates the empty list on first use. -/

/-- Embeds `recordNickname` (src/index.js 100-119) acting on the history list
of one (guild, user) pair.  The JS guard `if (!guild || !member || !nickname)
return;` rejects the empty string (falsy); then the nickname is prepended only
when not already present (`!history.includes(nickname)`) and the list is
truncated with `slice(0, 20)`. -/
def recordNickname (nickname : String) (hist : List String) : List String :=
  if nickname = "" then hist
  else if nickname ∈ hist then hist
  else (nickname :: hist).take 20

/-- Folding a whole sequence of `recordNickname` calls for one (guild, user)
pair, starting from the freshly created empty history. -/
def applyNicknames (nicks : List String) : List String :=
  nicks.foldl (fun h n => recordNickname n h) []

/-- Embeds `getNicknameHistory` (src/index.js 127-132): renders
`history.slice(1).join(', ')`, or a placeholder when no history exists. -/
def getNicknameHistory (hist : List String) : String :=
  if hist.length = 0 then "None recorded."
  else String.intercalate ", " (hist.drop 1)

/-! ## Audit-log attribution (`getAuditLogExecutor`, src/index.js 185-208) -/

/-- A user identity as used by audit-log entries and embed rendering. -/
structure UserRef where
  id : String
  tag : String
deriving DecidableEq

/-- One fetched audit-log entry. `action` is the numeric audit-log event kind,
`targetId` the affected entity (absent for some kinds), `createdTimestamp`
milliseconds, `reason` the optional moderator-supplied reason. -/
structure AuditEntry where
  action : Nat
  targetId : Option String
  createdTimestamp : Int
  executor : UserRef
  reason : Option String
deriving DecidableEq

/-- Discord audit-log event kind numbers used by the handlers. -/
def AuditGuildUpdate : Nat := 1
def AuditChannelUpdate : Nat := 11
def AuditChannelDelete : Nat := 12
def AuditMemberKick : Nat := 20
def AuditMemberBanAdd : Nat := 22
def AuditMemberUpdate : Nat := 24
def AuditRoleUpdate : Nat := 31
def AuditMessageBulkDelete : Nat := 73

/-- The `find` callback of `getAuditLogExecutor` (src/index.js 195-198):
`types.includes(a.action) && (!targetId || a.targetId === targetId) &&
Date.now() - a.createdTimestamp < 5000`. -/
def satisfiesAudit (types : List Nat) (targetId : Option String) (now : Int)
    (a : AuditEntry) : Bool :=
  types.contains a.action && (targetId.isNone || a.targetId == targetId) &&
    decide (now - a.createdTimestamp < 5000)

/-- Default reason substituted when a matching entry carries no reason. -/
def defaultAuditReason : String := "No reason provided in Audit Log."

/-- Embeds the successful path of `getAuditLogExecutor` (src/index.js
185-208): the externally fetched entries (the fetch asks for at most 5) are
scanned with `find`, and the first entry passing `satisfiesAudit` yields its
executor together with `reason || 'No reason provided in Audit Log.'`; with no
match the result is `{ executor: null, reason: null }`. -/
def getAuditLogExecutor (types : List Nat) (targetId : Option String)
    (now : Int) (entries : List AuditEntry) : Option UserRef × Option String :=
  match entries.find? (satisfiesAudit types targetId now) with
  | some a => (some a.executor, some (jsOrDefault a.reason defaultAuditReason))
  | none => (none, none)

/-- Outcome of running a JS async function: a resolved value or a rejection. -/
inductive JsOutcome (α : Type) where
  | ok (val : α)
  | thrown (err : String)
deriving DecidableEq

/-- Embeds `getAuditLogExecutor` including its `catch` block.  In the source,
`const types = ...` is declared inside the `try` block and is therefore block
scoped: the `catch` block evaluates the template literal
`` `... ${types.join(', ')} ...` `` over a name that is not in scope, which
raises `ReferenceError: types is not defined` inside the catch handler.  That
error escapes the try/catch, so when the audit-log fetch fails the async
function rejects instead of reaching its `return { executor: null, reason:
null }` statement. -/
def getAuditLogExecutorJs (typeArg : List Nat) (targetId : Option String)
    (now : Int) (fetched : Except String (List AuditEntry)) :
    JsOutcome (Option UserRef × Option String) :=
  match fetched with
  | Except.ok entries =>
      JsOutcome.ok (getAuditLogExecutor typeArg targetId now entries)
  | Except.error _ => JsOutcome.thrown "ReferenceError: types is not defined"

/-! ## Invite delta tracking (`guildMemberAdd` handler, src/index.js 416-448) -/

/-- A live invite as returned by `guild.invites.fetch()`. -/
structure Invite where
  code : String
  uses : Nat
  inviter : Option String
deriving DecidableEq

/-- Outcome of the invite-attribution pass of the `guildMemberAdd` handler. -/
inductive JoinAttribution where
  | attributed (invite : Invite)
  | indeterminate
  | trackingDisabled
deriving DecidableEq

/-- The snapshot stored back into `client.invites`:
`new Collection(newInvites.map(invite => [invite.code, invite.uses]))`. -/
def snapshotOf (live : List Invite) : List (String × Nat) :=
  live.map (fun i => (i.code, i.uses))

/-- The `for (const [code, invite] of newInvites)` loop of the handler: it
walks the live invites in order and stops at the first one whose live
`uses` strictly exceeds the cached count (`cachedInvites.get(code) || 0`,
so a code absent from the cache counts as 0). -/
def findUsedInvite (cached : List (String × Nat)) (live : List Invite) :
    Option Invite :=
  live.find? (fun i => decide ((List.lookup i.code cached).getD 0 < i.uses))

/-- Embeds the invite-tracking block of the `guildMemberAdd` handler
(src/index.js 420-445).  Input: the cached snapshot for the guild (`none`
when `client.invites` has no entry, i.e. tracking is disabled) and the live
invite list that `guild.invites.fetch()` would return.  Output: the
attribution outcome, the guild's cache entry afterwards, and whether a live
fetch was performed.  In the cached branch the loop may mutate one entry of
the old cache, but the whole entry is then replaced by the live snapshot, so
the final cache is `snapshotOf live` in both the attributed and the
indeterminate case. -/
def guildMemberAddInvitePass (cache : Option (List (String × Nat)))
    (live : List Invite) :
    JoinAttribution × Option (List (String × Nat)) × Bool :=
  match cache with
  | none => (JoinAttribution.trackingDisabled, none, false)
  | some cached =>
    match findUsedInvite cached live with
    | some i => (JoinAttribution.attributed i, some (snapshotOf live), true)
    | none => (JoinAttribution.indeterminate, some (snapshotOf live), true)

/-! ## Canonical log records and colors -/

/-- The canonical log record handed to `logEvent`: embed title, description
and severity color (the discord.js `Colors` constants). -/
structure LogRecord where
  title : String
  description : String
  color : Nat
deriving DecidableEq

def ColorsGreen : Nat := 0x57F287
def ColorsRed : Nat := 0xED4245
def ColorsOrange : Nat := 0xE67E22
def ColorsBlue : Nat := 0x3498DB
def ColorsYellow : Nat := 0xFEE75C
def ColorsDarkGreen : Nat := 0x1F8B4C

/-! ## Message delete handler (src/index.js 527-562) -/

/-- The author of a (possibly uncached) deleted message. -/
structure MsgAuthor where
  id : String
  tag : String
  isBot : Bool
deriving DecidableEq

/-- A `messageDelete` payload.  `author = none` models an uncached message
whose author is unknown; `content = ""` models missing/empty content (both
are falsy in the JS checks); `channelMention` is the rendering of
`${message.channel}`; attachments are (name, url) pairs. -/
structure DeletedMessage where
  inGuild : Bool
  author : Option MsgAuthor
  channelId : String
  channelMention : String
  content : String
  attachments : List (String × String)
deriving DecidableEq

/-- The attachment bullet list built by the handler. -/
def attachmentLines (atts : List (String × String)) : String :=
  String.join (atts.map (fun att => "- [" ++ att.1 ++ "](" ++ att.2 ++ ")\n"))

/-- The description string assembled by the `messageDelete` handler
(src/index.js 540-559).  `content.substring(0, 1000)` is modelled by
`String.take 1000` (the contents are treated as character sequences). -/
def messageDeleteDescription (m : DeletedMessage) : String :=
  let authorTag := match m.author with | some a => a.tag | none => "Unknown/Cached"
  let authorId := match m.author with | some a => a.id | none => "Unknown"
  let isBot := match m.author with | some a => a.isBot | none => false
  let base := "**Author:** " ++ authorTag ++ " (" ++ authorId ++ ") " ++
    (if isBot then "(BOT)" else "") ++ "\n**Channel:** " ++ m.channelMention ++ "\n"
  let base := if m.content ≠ "" then
      base ++ "\n**Content:** \n```\n" ++ m.content.take 1000 ++ "\n```"
    else base
  if m.attachments.length > 0 then
    base ++ "\n**Deleted Attachments:** (" ++ toString m.attachments.length ++
      " files)\n" ++ attachmentLines m.attachments
  else if m.content = "" then base ++ "\n**Content:** (Unknown/Empty)"
  else base

/-- The early-return guard `message.author && message.author.bot &&
message.author.id !== client.user.id` (src/index.js 531). -/
def isForeignBotAuthor (selfId : String) (m : DeletedMessage) : Bool :=
  match m.author with
  | some a => a.isBot && a.id != selfId
  | none => false

/-- Embeds the `messageDelete` handler (src/index.js 527-562) up to the point
where a record is (or is not) emitted.  Returns the emitted record, or `none`
when the handler returns early: outside a guild, for a message authored by a
bot other than this bot (`selfId`), or when the bulk-delete audit lookup for
the channel returns an executor. -/
def messageDeleteHandler (selfId : String) (m : DeletedMessage) (now : Int)
    (entries : List AuditEntry) : Option LogRecord :=
  if !m.inGuild then none
  else if isForeignBotAuthor selfId m then none
  else if ((getAuditLogExecutor [AuditMessageBulkDelete] (some m.channelId)
      now entries).1).isSome then none
  else some { title := "🗑️ Message Deleted",
              description := messageDeleteDescription m,
              color := ColorsRed }

/-! ## Member leave handler (src/index.js 451-471) -/

/-- A leaving member; `joinedAtSec` is the epoch-second join time already
floor-divided as in `Math.floor(member.joinedAt.getTime() / 1000)` (`none`
when `joinedAt` is unavailable). -/
structure LeavingMember where
  id : String
  tag : String
  joinedAtSec : Option Int
deriving DecidableEq

/-- The description prefix built before the audit lookup (src/index.js
452-457). -/
def memberRemoveBase (m : LeavingMember) : String :=
  "**User:** " ++ m.tag ++ " (" ++ m.id ++ ")\n" ++
    (match m.joinedAtSec with
     | some t => "**Joined:** <t:" ++ toString t ++ ":f>\n"
     | none => "**Joined:** Time unknown\n")

/-- Embeds the `guildMemberRemove` handler (src/index.js 451-471): a kick
audit lookup for the member decides between a kick record (orange, with
responsible moderator and reason) and a plain leave record (red). -/
def guildMemberRemoveHandler (m : LeavingMember) (now : Int)
    (entries : List AuditEntry) : LogRecord :=
  let r := getAuditLogExecutor [AuditMemberKick] (some m.id) now entries
  match r.1 with
  | some ex =>
      { title := "🔨 Member Kicked",
        description := memberRemoveBase m ++ "\n**Responsible Mod:** " ++
          ex.tag ++ " (" ++ ex.id ++ ")\n**Reason:** " ++
          jsOrDefault r.2 "No reason provided.",
        color := ColorsOrange }
  | none =>
      { title := "🔴 Member Left/Quit", description := memberRemoveBase m,
        color := ColorsRed }

/-! ## Channel / role / guild update handlers (src/index.js 622-662, 681-702,
705-729) -/

/-- Rendering `executor ? executor.tag (executor.id) : fallback` used by the
update handlers. -/
def modTag (ex : Option UserRef) (fallback : String) : String :=
  match ex with
  | some u => u.tag ++ " (" ++ u.id ++ ")"
  | none => fallback

/-- One permission overwrite of a channel, with its raw allow/deny bitfields. -/
structure PermOverwrite where
  id : String
  allow : Nat
  deny : Nat
deriving DecidableEq

/-- A channel snapshot with the fields the `channelUpdate` handler tracks.
`isIncomplete` models the discord.js `.partial` flag; `mention` renders
`${channel}`. -/
structure ChannelSnap where
  id : String
  mention : String
  hasGuild : Bool
  isIncomplete : Bool
  name : String
  topic : Option String
  rateLimitPerUser : Nat
  permissionOverwrites : List PermOverwrite
deriving DecidableEq

/-- `oldPerms.get(id)` over the overwrite collection. -/
def findOverwrite (l : List PermOverwrite) (oid : String) :
    Option PermOverwrite :=
  l.find? (fun p => p.id == oid)

/-- The `newPerms.filter(...)` of the handler: overwrites that are new or
whose allow/deny bitfields changed (src/index.js 643-647). -/
def changedOverwrites (oldPerms newPerms : List PermOverwrite) :
    List PermOverwrite :=
  newPerms.filter (fun p =>
    match findOverwrite oldPerms p.id with
    | none => true
    | some q => q.allow != p.allow || q.deny != p.deny)

/-- The ordered change list built by the `channelUpdate` handler
(src/index.js 625-652): name, topic, slowmode, then permission overwrites. -/
def channelChanges (o n : ChannelSnap) : List String :=
  (if o.name != n.name then
      ["Name changed from `" ++ o.name ++ "` to `" ++ n.name ++ "`"]
    else []) ++
  (if o.topic != n.topic then ["Topic was modified."] else []) ++
  (if o.rateLimitPerUser != n.rateLimitPerUser then
      ["Slowmode changed from `" ++ toString o.rateLimitPerUser ++
        "s` to `" ++ toString n.rateLimitPerUser ++ "s`"]
    else []) ++
  (if o.permissionOverwrites.length != n.permissionOverwrites.length then
      ["Permission Overrides: Count changed from " ++
        toString o.permissionOverwrites.length ++ " to " ++
        toString n.permissionOverwrites.length ++ "."]
    else if (changedOverwrites o.permissionOverwrites
        n.permissionOverwrites).length > 0 then
      ["Permission Overrides: " ++ toString (changedOverwrites
        o.permissionOverwrites n.permissionOverwrites).length ++
        " roles/users had their channel permissions modified."]
    else [])

/-- Embeds the `channelUpdate` handler (src/index.js 622-662).  The second
component records whether the audit-log lookup was performed: the handler
returns before the lookup when the payload is partial/non-guild or when no
tracked field changed. -/
def channelUpdateHandler (o n : ChannelSnap) (now : Int)
    (entries : List AuditEntry) : Option LogRecord × Bool :=
  if !n.hasGuild || o.isIncomplete || n.isIncomplete then (none, false)
  else
    let changes := channelChanges o n
    if changes.length = 0 then (none, false)
    else
      let r := getAuditLogExecutor [AuditChannelUpdate] (some n.id) now entries
      (some { title := "⚙️ Channel Settings Updated",
              description := "**Channel:** " ++ n.name ++ " (" ++ n.mention ++
                ")\n**Moderator:** " ++ modTag r.1 "Unknown" ++
                "\n\n**Changes:**\n- " ++ String.intercalate "\n- " changes,
              color := ColorsYellow }, true)

/-- A role snapshot with the fields the `roleUpdate` handler tracks; `color`
and `permissions` are the raw numeric values. -/
structure RoleSnap where
  id : String
  name : String
  color : Nat
  permissions : Nat
deriving DecidableEq

/-- `x.toString(16).toUpperCase()` on a number. -/
def hexUpper (x : Nat) : String := (Nat.toDigits 16 x).asString.toUpper

/-- The ordered change list of the `roleUpdate` handler (src/index.js
682-692): name, color, permissions. -/
def roleChanges (o n : RoleSnap) : List String :=
  (if o.name != n.name then
      ["Name changed from `" ++ o.name ++ "` to `" ++ n.name ++ "`"]
    else []) ++
  (if o.color != n.color then
      ["Color changed from `#" ++ hexUpper o.color ++ "` to `#" ++
        hexUpper n.color ++ "`"]
    else []) ++
  (if o.permissions != n.permissions then ["Permissions were modified."]
    else [])

/-- Embeds the `roleUpdate` handler (src/index.js 681-702); the Bool again
records whether the audit-log lookup ran. -/
def roleUpdateHandler (o n : RoleSnap) (now : Int)
    (entries : List AuditEntry) : Option LogRecord × Bool :=
  let changes := roleChanges o n
  if changes.length = 0 then (none, false)
  else
    let r := getAuditLogExecutor [AuditRoleUpdate] (some n.id) now entries
    (some { title := "⚙️ Role Settings Updated",
            description := "**Role:** " ++ n.name ++ " (" ++ n.id ++
              ")\n**Moderator:** " ++ modTag r.1 "Unknown" ++
              "\n\n**Changes:**\n- " ++ String.intercalate "\n- " changes,
            color := ColorsYellow }, true)

/-- A guild snapshot with the fields the `guildUpdate` handler tracks.
`icon` is the result of `iconURL()`; `systemChannelMention` renders
`${newGuild.systemChannel}` when present. -/
structure GuildSnap where
  name : String
  icon : Option String
  verificationLevel : Nat
  systemChannelId : Option String
  systemChannelMention : Option String
deriving DecidableEq

/-- The `levels` lookup table of the `guildUpdate` handler. -/
def verificationLevels : List String :=
  ["None", "Low", "Medium", "High", "Highest"]

/-- The ordered change list of the `guildUpdate` handler (src/index.js
706-720): name, icon, verification level, system channel. -/
def guildChanges (o n : GuildSnap) : List String :=
  (if o.name != n.name then
      ["Name changed from `" ++ o.name ++ "` to `" ++ n.name ++ "`"]
    else []) ++
  (if o.icon != n.icon then ["Icon changed."] else []) ++
  (if o.verificationLevel != n.verificationLevel then
      ["Verification Level changed from `" ++
        verificationLevels.getD o.verificationLevel "undefined" ++
        "` to `" ++ verificationLevels.getD n.verificationLevel "undefined" ++
        "`"]
    else []) ++
  (if o.systemChannelId != n.systemChannelId then
      ["System Channel changed to " ++
        (match n.systemChannelMention with | some s => s | none => "None")]
    else [])

/-- Embeds the `guildUpdate` handler (src/index.js 705-729); the Bool records
whether the audit-log lookup ran (its target id is null for guild updates). -/
def guildUpdateHandler (o n : GuildSnap) (now : Int)
    (entries : List AuditEntry) : Option LogRecord × Bool :=
  let changes := guildChanges o n
  if changes.length = 0 then (none, false)
  else
    let r := getAuditLogExecutor [AuditGuildUpdate] none now entries
    (some { title := "🌐 Server Settings Updated",
            description := "**Moderator:** " ++
              modTag r.1 "Unknown/Automatic" ++ "\n\n**Changes:**\n- " ++
              String.intercalate "\n- " changes,
            color := ColorsDarkGreen }, true)

/-! ## Config store, delivery and eviction (`logEvent`, `loadConfig`,
`saveConfig`, src/index.js 60-92, 143-176) -/

/-- The process-wide mutable state touched by `logEvent`/`saveConfig`/
`loadConfig`: the guild→log-channel map and the nickname history, each with
its in-memory copy and its on-disk (persisted) copy, plus the in-memory-only
invite snapshot cache.  Maps are association lists keyed by guild id. -/
structure ProcState where
  guildConfigMem : List (String × String)
  guildConfigDisk : List (String × String)
  nicknameHistoryMem : List (String × List (String × List String))
  nicknameHistoryDisk : List (String × List (String × List String))
  invitesCache : List (String × List (String × Nat))
deriving DecidableEq

/-- Result of the delivery attempt inside `logEvent`'s try block. -/
inductive DeliveryResult where
  | delivered
  | notText
  | failed (code : Option Nat)
deriving DecidableEq

/-- `saveConfig` (src/index.js 85-92): writes both in-memory stores to disk. -/
def saveConfig (st : ProcState) : ProcState :=
  { st with guildConfigDisk := st.guildConfigMem,
            nicknameHistoryDisk := st.nicknameHistoryMem }

/-- `loadConfig` (src/index.js 60-80): reads both stores back from disk. -/
def loadConfig (st : ProcState) : ProcState :=
  { st with guildConfigMem := st.guildConfigDisk,
            nicknameHistoryMem := st.nicknameHistoryDisk }

/-- `delete guildConfig[guild.id]` on the association-list model (object keys
are unique, so filtering the key out removes the entry). -/
def deleteGuildConfig (l : List (String × String)) (g : String) :
    List (String × String) :=
  l.filter (fun p => p.1 != g)

/-- Embeds `logEvent` (src/index.js 143-176) as a state transition.  The
first component is the state afterwards; the second is whether the function
got past the config guard and attempted the channel fetch / message send.
`delivery` tells how the externally performed attempt ended: `failed code`
models a thrown error whose `e.code` is `code` (`none` when the error has no
numeric code).  Eviction plus `saveConfig` happens exactly for codes 10003
(Unknown Channel) and 50001 (Missing Access). -/
def logEvent (st : ProcState) (guildId : String) (delivery : DeliveryResult) :
    ProcState × Bool :=
  match List.lookup guildId st.guildConfigMem with
  | none => (st, false)
  | some channelId =>
    if channelId = "" then (st, false)
    else
      match delivery with
      | DeliveryResult.failed code =>
          if code = some 10003 ∨ code = some 50001 then
            (saveConfig { st with
              guildConfigMem := deleteGuildConfig st.guildConfigMem guildId },
              true)
          else (st, true)
      | _ => (st, true)

/-! ## Nickname-change branch of `guildMemberUpdate` (src/index.js 474-486) -/

/-- Embeds the nickname branch of the `guildMemberUpdate` handler: when the
nickname differs, `recordNickname` stores `newNick || username` into the
(guild, user) history, and the emitted record renders the updated history
through `getNicknameHistory` (all but the newest entry).  Returns the
post-update history and the emitted record, or the unchanged history and no
record when the nickname did not change. -/
def nicknameUpdatePass (oldNick newNick : Option String) (username : String)
    (hist : List String) : List String × Option LogRecord :=
  if oldNick == newNick then (hist, none)
  else
    let hist2 := recordNickname (jsOrDefault newNick username) hist
    (hist2, some { title := "📝 Nickname Changed (History Recorded)",
                   description := "**Old Nick:** " ++
                     jsOrDefault oldNick "None" ++ "\n**New Nick:** " ++
                     jsOrDefault newNick "None" ++
                     "\n\n**Past Nicknames:** " ++ getNicknameHistory hist2,
                   color := ColorsBlue })

/-! ## Helper lemmas -/

/-- The three invariants claimed for a stored nickname-history list. -/
def NickInvariant (h : List String) : Prop :=
  h.length ≤ 20 ∧ h.Nodup ∧ "" ∉ h

lemma recordNickname_invariant (n : String) (h : List String)
    (H : NickInvariant h) : NickInvariant (recordNickname n h) := by
  obtain ⟨hlen, hnd, hne⟩ := H
  unfold recordNickname
  split
  · exact ⟨hlen, hnd, hne⟩
  · rename_i hnemp
    split
    · exact ⟨hlen, hnd, hne⟩
    · rename_i hmem
      refine ⟨?_, ?_, ?_⟩
      · simp [Nat.min_le_left 20 (n :: h).length]
      · exact (List.take_sublist 20 (n :: h)).nodup
          (List.nodup_cons.mpr ⟨hmem, hnd⟩)
      · intro hcontra
        rcases List.mem_cons.mp (List.take_subset _ _ hcontra) with heq | hmem2
        · exact hnemp heq.symm
        · exact hne hmem2

lemma applyNicknames_invariant_aux (l : List String) (h : List String)
    (H : NickInvariant h) :
    NickInvariant (l.foldl (fun acc n => recordNickname n acc) h) := by
  induction l generalizing h with
  | nil => exact H
  | cons x xs ih => exact ih _ (recordNickname_invariant x h H)

lemma find?_eq_some_split {α : Type} (p : α → Bool) (l : List α) (a : α)
    (h : l.find? p = some a) :
    ∃ pre post, l = pre ++ a :: post ∧ (∀ b ∈ pre, p b = false) ∧
      p a = true := by
  induction l with
  | nil => simp at h
  | cons x xs ih =>
    by_cases hx : p x
    · rw [List.find?_cons_of_pos _ hx] at h
      obtain rfl : x = a := by injection h
      exact ⟨[], xs, rfl, by simp, hx⟩
    · rw [List.find?_cons_of_neg _ hx] at h
      obtain ⟨pre, post, rfl, hpre, hpa⟩ := ih h
      refine ⟨x :: pre, post, rfl, ?_, hpa⟩
      intro b hb
      rcases List.mem_cons.mp hb with rfl | hbp
      · exact Bool.eq_false_iff.mpr hx
      · exact hpre b hbp

lemma jsOrDefault_auditReason_ne_empty (r : Option String) :
    jsOrDefault r defaultAuditReason ≠ "" := by
  cases r with
  | none => simp [jsOrDefault, defaultAuditReason]
  | some s =>
    by_cases hs : s = ""
    · simp [jsOrDefault, hs, defaultAuditReason]
    · simp [jsOrDefault, hs]

lemma jsOrDefault_some_of_ne (s : String) (h : s ≠ "") (d : String) :
    jsOrDefault (some s) d = s := by
  simp [jsOrDefault, h]

lemma satisfiesAudit_eq_true_iff (types : List Nat) (targetId : Option String)
    (now : Int) (a : AuditEntry) :
    satisfiesAudit types targetId now a = true ↔
      (a.action ∈ types ∧ (targetId = none ∨ a.targetId = targetId) ∧
        now - a.createdTimestamp < 5000) := by
  unfold satisfiesAudit
  simp [Option.isNone_iff_eq_none, and_assoc]

/-! ## Claim theorems (first group) -/

/-- C1: every sequence of `recordNickname` calls keeps the stored history of a
(guild, user) pair at most 20 entries long, duplicate free and free of empty
strings; and each single call prepends the nickname exactly when it is
non-empty and not already present, truncating to 20 afterwards, so the list is
ordered most-recent-first. -/
theorem C1_nickname_history_invariant (nicks : List String) :
    (applyNicknames nicks).length ≤ 20 ∧ (applyNicknames nicks).Nodup ∧
    "" ∉ applyNicknames nicks ∧
    (∀ n h, recordNickname n h =
      if n = "" ∨ n ∈ h then h else (n :: h).take 20) := by
  have H := applyNicknames_invariant_aux nicks []
    ⟨by simp, List.nodup_nil, by simp⟩
  obtain ⟨h1, h2, h3⟩ := H
  refine ⟨h1, h2, h3, ?_⟩
  intro n h
  unfold recordNickname
  by_cases he : n = ""
  · simp [he]
  · by_cases hm : n ∈ h <;> simp [he, hm]

/-- C2: the audit-attribution lookup scans the fetched entries in order and
selects the first entry whose action kind is in the requested set, whose
target matches the given `targetId` (vacuously when none is given) and whose
timestamp is within the 5-second recency window of `now`; it then returns that
entry's executor and its reason (with the default reason substituted when the
entry carries none), and returns a null executor and null reason when no entry
satisfies all three constraints. -/
theorem C2_audit_selection (types : List Nat) (targetId : Option String)
    (now : Int) (entries : List AuditEntry) :
    (∀ a : AuditEntry, satisfiesAudit types targetId now a = true ↔
        (a.action ∈ types ∧ (targetId = none ∨ a.targetId = targetId) ∧
          now - a.createdTimestamp < 5000)) ∧
    (match entries.find? (satisfiesAudit types targetId now) with
     | some a =>
        satisfiesAudit types targetId now a = true ∧
        (∃ pre post, entries = pre ++ a :: post ∧
          ∀ b ∈ pre, satisfiesAudit types targetId now b = false) ∧
        getAuditLogExecutor types targetId now entries =
          (some a.executor, some (jsOrDefault a.reason defaultAuditReason))
     | none =>
        (∀ a ∈ entries, satisfiesAudit types targetId now a = false) ∧
        getAuditLogExecutor types targetId now entries = (none, none)) := by
  refine ⟨satisfiesAudit_eq_true_iff types targetId now, ?_⟩
  cases h : entries.find? (satisfiesAudit types targetId now) with
  | some a =>
    refine ⟨List.find?_some h, ?_, ?_⟩
    · obtain ⟨pre, post, heq, hpre, _⟩ := find?_eq_some_split _ _ _ h
      exact ⟨pre, post, heq, hpre⟩
    · unfold getAuditLogExecutor
      rw [h]
  | none =>
    refine ⟨?_, ?_⟩
    · intro a ha
      have := List.find?_eq_none.mp h a ha
      exact Bool.eq_false_iff.mpr this
    · unfold getAuditLogExecutor
      rw [h]

/-- C3 (code bug evaluation): when the external audit-log fetch fails, the
embedded `getAuditLogExecutor` does not resolve to `{ executor: null, reason:
null }` — the catch block references the block-scoped `types` binding and the
function rejects with a `ReferenceError` instead, which propagates to the
calling event handler. -/
theorem C3_fetch_failure_throws :
    getAuditLogExecutorJs [AuditMemberKick] none 0
        (Except.error "Missing Permissions") =
      JsOutcome.thrown "ReferenceError: types is not defined" ∧
    (∀ result : Option UserRef × Option String,
      getAuditLogExecutorJs [AuditMemberKick] none 0
          (Except.error "Missing Permissions") ≠ JsOutcome.ok result) := by
  refine ⟨rfl, ?_⟩
  intro result
  simp [getAuditLogExecutorJs]

/-- C4: with a cached snapshot present, the join attribution picks the first
live invite whose use count strictly exceeds its cached count (0 for a code
absent from the cache), is indeterminate when no invite increased, and in
both cases the cache is replaced by the full live snapshot after a live
fetch; without a snapshot the result is tracking-disabled with no live fetch.
In particular cache A:5,B:2 with live A:5,B:3 attributes to B, and with live
A:5,B:2 it is indeterminate. -/
theorem C4_invite_attribution :
    (∀ (cached : List (String × Nat)) (live : List Invite),
      match findUsedInvite cached live with
      | some i =>
          (List.lookup i.code cached).getD 0 < i.uses ∧
          (∃ pre post, live = pre ++ i :: post ∧
            ∀ j ∈ pre, ¬ ((List.lookup j.code cached).getD 0 < j.uses)) ∧
          guildMemberAddInvitePass (some cached) live =
            (JoinAttribution.attributed i, some (snapshotOf live), true)
      | none =>
          (∀ j ∈ live, ¬ ((List.lookup j.code cached).getD 0 < j.uses)) ∧
          guildMemberAddInvitePass (some cached) live =
            (JoinAttribution.indeterminate, some (snapshotOf live), true)) ∧
    (∀ live : List Invite, guildMemberAddInvitePass none live =
      (JoinAttribution.trackingDisabled, none, false)) ∧
    guildMemberAddInvitePass (some [("A", 5), ("B", 2)])
        [⟨"A", 5, none⟩, ⟨"B", 3, none⟩] =
      (JoinAttribution.attributed ⟨"B", 3, none⟩,
        some [("A", 5), ("B", 3)], true) ∧
    guildMemberAddInvitePass (some [("A", 5), ("B", 2)])
        [⟨"A", 5, none⟩, ⟨"B", 2, none⟩] =
      (JoinAttribution.indeterminate, some [("A", 5), ("B", 2)], true) := by
  refine ⟨?_, ?_, by decide, by decide⟩
  · intro cached live
    cases h : findUsedInvite cached live with
    | some i =>
      refine ⟨?_, ?_, ?_⟩
      · have hp := List.find?_some h
        simpa using hp
      · obtain ⟨pre, post, heq, hpre, _⟩ := find?_eq_some_split _ _ _ h
        refine ⟨pre, post, heq, ?_⟩
        intro j hj
        have := hpre j hj
        simpa using this
      · simp only [guildMemberAddInvitePass, h]
    | none =>
      refine ⟨?_, ?_⟩
      · intro j hj
        have := List.find?_eq_none.mp h j hj
        simpa using this
      · simp only [guildMemberAddInvitePass, h]
  · intro live
    rfl

/-- C5 counterexample: a guild message authored by a foreign bot yields no
message-deleted record even though no bulk-delete audit entry exists (the
empty audit fetch), contradicting the claim that a single record is emitted
whenever no bulk-delete entry is found. -/
theorem C5_counterexample_foreign_bot :
    ([] : List AuditEntry).find?
        (satisfiesAudit [AuditMessageBulkDelete] (some "chan") 0) = none ∧
    messageDeleteHandler "self"
      { inGuild := true,
        author := some { id := "otherBot", tag := "Other#1", isBot := true },
        channelId := "chan", channelMention := "#chan", content := "hi",
        attachments := [] } 0 [] = none := by
  exact ⟨rfl, rfl⟩

/-- C5 (amended): for a message-delete event in a guild whose author is not a
foreign bot, the handler emits no record exactly when the bulk-delete audit
lookup finds a matching entry for the channel within the window, and
otherwise emits the single message-deleted record. -/
theorem C5_amended_bulk_suppression (selfId : String) (m : DeletedMessage)
    (now : Int) (entries : List AuditEntry)
    (hg : m.inGuild = true)
    (hb : isForeignBotAuthor selfId m = false) :
    messageDeleteHandler selfId m now entries =
      if (entries.find? (satisfiesAudit [AuditMessageBulkDelete]
            (some m.channelId) now)).isSome then none
      else some { title := "🗑️ Message Deleted",
                  description := messageDeleteDescription m,
                  color := ColorsRed } := by
  unfold messageDeleteHandler getAuditLogExecutor
  rw [hg, hb]
  cases h : entries.find?
      (satisfiesAudit [AuditMessageBulkDelete] (some m.channelId) now) <;>
    simp [h]

/-- Concrete inputs for the C5 witness: a non-bot-authored guild message and
a bulk-delete audit entry for its channel 1 second before now. -/
def msgC5 : DeletedMessage :=
  { inGuild := true,
    author := some { id := "u1", tag := "User#1", isBot := false },
    channelId := "chan", channelMention := "#chan", content := "hello",
    attachments := [] }

def bulkEntryC5 : AuditEntry :=
  { action := 73, targetId := some "chan", createdTimestamp := 0,
    executor := { id := "mod1", tag := "Mod#1" }, reason := none }

theorem C5_amended_witness :
    msgC5.inGuild = true ∧ isForeignBotAuthor "self" msgC5 = false ∧
    messageDeleteHandler "self" msgC5 1000 [bulkEntryC5] =
      (if (([bulkEntryC5].find? (satisfiesAudit [AuditMessageBulkDelete]
            (some msgC5.channelId) 1000))).isSome then none
       else some { title := "🗑️ Message Deleted",
                   description := messageDeleteDescription msgC5,
                   color := ColorsRed }) :=
  ⟨rfl, rfl, C5_amended_bulk_suppression "self" msgC5 1000 [bulkEntryC5] rfl rfl⟩

/-- C6: on a member-leave event, if a kick audit entry matching the member id
lies within the recency window the emitted record is titled "🔨 Member
Kicked" with orange severity and its description names the responsible
moderator and reason; with no such entry the record is "🔴 Member Left/Quit"
with red severity. -/
theorem C6_kick_vs_plain_leave (m : LeavingMember) (now : Int)
    (entries : List AuditEntry) :
    match entries.find? (satisfiesAudit [AuditMemberKick] (some m.id) now) with
    | some a =>
        guildMemberRemoveHandler m now entries =
          { title := "🔨 Member Kicked",
            description := memberRemoveBase m ++ "\n**Responsible Mod:** " ++
              a.executor.tag ++ " (" ++ a.executor.id ++ ")\n**Reason:** " ++
              jsOrDefault a.reason defaultAuditReason,
            color := ColorsOrange }
    | none =>
        guildMemberRemoveHandler m now entries =
          { title := "🔴 Member Left/Quit",
            description := memberRemoveBase m, color := ColorsRed } := by
  cases h : entries.find? (satisfiesAudit [AuditMemberKick] (some m.id) now) with
  | some a =>
    unfold guildMemberRemoveHandler getAuditLogExecutor
    rw [h]
    simp [jsOrDefault_some_of_ne _ (jsOrDefault_auditReason_ne_empty a.reason)]
  | none =>
    unfold guildMemberRemoveHandler getAuditLogExecutor
    rw [h]

lemma findOverwrite_self (l : List PermOverwrite)
    (hl : (l.map PermOverwrite.id).Nodup) (p : PermOverwrite) (hp : p ∈ l) :
    findOverwrite l p.id = some p := by
  induction l with
  | nil => cases hp
  | cons q t ih =>
    rw [List.map_cons, List.nodup_cons] at hl
    rcases List.mem_cons.mp hp with rfl | hpt
    · unfold findOverwrite
      rw [List.find?_cons_of_pos]
      simp
    · have hqne : q.id ≠ p.id := by
        intro he
        exact hl.1 (by rw [he]; exact List.mem_map_of_mem _ hpt)
      unfold findOverwrite at ih ⊢
      rw [List.find?_cons_of_neg]
      · exact ih hl.2 hpt
      · simp [hqne]

lemma changedOverwrites_self (l : List PermOverwrite)
    (hl : (l.map PermOverwrite.id).Nodup) : changedOverwrites l l = [] := by
  unfold changedOverwrites
  rw [List.filter_eq_nil_iff]
  intro p hp
  rw [findOverwrite_self l hl p hp]
  simp

lemma lookup_deleteGuildConfig (l : List (String × String)) (g : String) :
    List.lookup g (deleteGuildConfig l g) = none := by
  rw [List.lookup_eq_none_iff]
  intro p hp
  have h2 : p ∈ l ∧ ¬ p.1 = g := by simpa [deleteGuildConfig] using hp
  simp only [bne_iff_ne]
  exact fun he => h2.2 he.symm

/-! ## Claim theorems (second group) -/

/-- C7: when the before and after snapshots agree on every tracked field
(channel: name, topic, rate limit, permission overwrites; role: name, color,
permissions; guild: name, icon, verification level, system channel), each
update handler emits no record and performs no audit-log lookup. -/
theorem C7_no_tracked_change_silent
    (oc nc : ChannelSnap) (orl nrl : RoleSnap) (og ng : GuildSnap)
    (now : Int) (entries : List AuditEntry)
    (hcn : oc.name = nc.name) (hct : oc.topic = nc.topic)
    (hcr : oc.rateLimitPerUser = nc.rateLimitPerUser)
    (hcp : oc.permissionOverwrites = nc.permissionOverwrites)
    (hkeys : (nc.permissionOverwrites.map PermOverwrite.id).Nodup)
    (hrn : orl.name = nrl.name) (hrc : orl.color = nrl.color)
    (hrp : orl.permissions = nrl.permissions)
    (hgn : og.name = ng.name) (hgi : og.icon = ng.icon)
    (hgv : og.verificationLevel = ng.verificationLevel)
    (hgs : og.systemChannelId = ng.systemChannelId) :
    channelUpdateHandler oc nc now entries = (none, false) ∧
    roleUpdateHandler orl nrl now entries = (none, false) ∧
    guildUpdateHandler og ng now entries = (none, false) := by
  have hcc : channelChanges oc nc = [] := by
    unfold channelChanges
    rw [hcn, hct, hcr, hcp]
    simp [changedOverwrites_self _ hkeys]
  have hrr : roleChanges orl nrl = [] := by
    unfold roleChanges
    rw [hrn, hrc, hrp]
    simp
  have hgg : guildChanges og ng = [] := by
    unfold guildChanges
    rw [hgn, hgi, hgv, hgs]
    simp
  refine ⟨?_, ?_, ?_⟩
  · unfold channelUpdateHandler
    split
    · rfl
    · simp [hcc]
  · unfold roleUpdateHandler
    simp [hrr]
  · unfold guildUpdateHandler
    simp [hgg]

/-- Concrete snapshots for the C7 witness. -/
def chanW : ChannelSnap :=
  { id := "c1", mention := "#general", hasGuild := true,
    isIncomplete := false, name := "general", topic := some "chat",
    rateLimitPerUser := 5,
    permissionOverwrites := [{ id := "r1", allow := 1024, deny := 0 }] }

def roleW : RoleSnap :=
  { id := "r1", name := "mods", color := 0xFF0000, permissions := 8 }

def guildW : GuildSnap :=
  { name := "guild", icon := some "iconA", verificationLevel := 2,
    systemChannelId := some "sc", systemChannelMention := some "#sys" }

theorem C7_no_tracked_change_silent_witness :
    (chanW.permissionOverwrites.map PermOverwrite.id).Nodup ∧
    (channelUpdateHandler chanW chanW 0 [] = (none, false) ∧
     roleUpdateHandler roleW roleW 0 [] = (none, false) ∧
     guildUpdateHandler guildW guildW 0 [] = (none, false)) :=
  ⟨by decide,
   C7_no_tracked_change_silent chanW chanW roleW roleW guildW guildW 0 []
     rfl rfl rfl rfl (by decide) rfl rfl rfl rfl rfl rfl rfl⟩

/-- C8: for a guild with a configured log destination, a delivery failure
whose error code is 10003 (Unknown Channel) or 50001 (Missing Access) removes
the guild entry from the in-memory config store and writes the store to disk
(so the removal survives `loadConfig`); a failure with any other code leaves
the whole process state unchanged. -/
theorem C8_unreachable_destination_evicted (st : ProcState) (g c : String)
    (code : Option Nat)
    (hc : List.lookup g st.guildConfigMem = some c) (hcne : c ≠ "") :
    (if code = some 10003 ∨ code = some 50001 then
        List.lookup g
          ((logEvent st g (DeliveryResult.failed code)).1).guildConfigMem =
            none ∧
        ((logEvent st g (DeliveryResult.failed code)).1).guildConfigDisk =
          ((logEvent st g (DeliveryResult.failed code)).1).guildConfigMem ∧
        List.lookup g
          ((loadConfig
            ((logEvent st g (DeliveryResult.failed code)).1)).guildConfigMem) =
            none
      else (logEvent st g (DeliveryResult.failed code)).1 = st) := by
  have hle : logEvent st g (DeliveryResult.failed code) =
      (if code = some 10003 ∨ code = some 50001 then
        (saveConfig { st with
          guildConfigMem := deleteGuildConfig st.guildConfigMem g }, true)
      else (st, true)) := by
    simp only [logEvent, hc]
    rw [if_neg hcne]
  by_cases hcode : code = some 10003 ∨ code = some 50001
  · rw [if_pos hcode, hle, if_pos hcode]
    exact ⟨by simp [saveConfig, lookup_deleteGuildConfig], rfl,
      by simp [saveConfig, loadConfig, lookup_deleteGuildConfig]⟩
  · rw [if_neg hcode, hle, if_neg hcode]

/-- Concrete state for the C8 witness: one configured guild, already
persisted to disk. -/
def stC8 : ProcState :=
  { guildConfigMem := [("g1", "c1")], guildConfigDisk := [("g1", "c1")],
    nicknameHistoryMem := [], nicknameHistoryDisk := [], invitesCache := [] }

theorem C8_unreachable_destination_evicted_witness :
    List.lookup "g1" stC8.guildConfigMem = some "c1" ∧ ("c1" : String) ≠ "" ∧
    (if (some 10003 : Option Nat) = some 10003 ∨
        (some 10003 : Option Nat) = some 50001 then
        List.lookup "g1"
          ((logEvent stC8 "g1"
            (DeliveryResult.failed (some 10003))).1).guildConfigMem = none ∧
        ((logEvent stC8 "g1"
            (DeliveryResult.failed (some 10003))).1).guildConfigDisk =
          ((logEvent stC8 "g1"
            (DeliveryResult.failed (some 10003))).1).guildConfigMem ∧
        List.lookup "g1"
          ((loadConfig ((logEvent stC8 "g1"
            (DeliveryResult.failed (some 10003))).1)).guildConfigMem) = none
      else (logEvent stC8 "g1" (DeliveryResult.failed (some 10003))).1 =
        stC8) :=
  ⟨rfl, by decide,
   C8_unreachable_destination_evicted stC8 "g1" "c1" (some 10003) rfl
     (by decide)⟩

/-- C9 counterexample: with stored history `["a", "b"]` (the user was "b"
before being "a"), a nickname change back to "b" makes `recordNickname` a
dedup no-op, and the rendered past-nicknames list (`history.slice(1)`) is
exactly "b" — the newly recorded nickname appears in the rendered list,
contradicting the claim that it never does. -/
theorem C9_counterexample_reused_nickname :
    (nicknameUpdatePass (some "a") (some "b") "user" ["a", "b"]).1 =
      ["a", "b"] ∧
    "b" ∈ ((nicknameUpdatePass (some "a") (some "b") "user" ["a", "b"]).1).drop
      1 ∧
    getNicknameHistory
      (nicknameUpdatePass (some "a") (some "b") "user" ["a", "b"]).1 = "b" := by
  refine ⟨rfl, by decide, rfl⟩

/-- C9 (amended): on a nickname change, the handler records the new nickname
(`newNick || username`) into history before rendering, and the rendered
past-nicknames string is exactly the stored list minus its head; when the
recorded nickname was not already present in the stored history it becomes
the head and therefore never appears in the rendered past list.  (When it was
already present, dedup leaves the history unchanged and it can appear — see
the counterexample.) -/
theorem C9_amended_past_nicknames (oldNick newNick : Option String)
    (username : String) (hist : List String)
    (hch : (oldNick == newNick) = false)
    (hfresh : jsOrDefault newNick username ∉ hist)
    (hne : jsOrDefault newNick username ≠ "") :
    (nicknameUpdatePass oldNick newNick username hist).1 =
      (jsOrDefault newNick username :: hist).take 20 ∧
    ((nicknameUpdatePass oldNick newNick username hist).1).head? =
      some (jsOrDefault newNick username) ∧
    jsOrDefault newNick username ∉
      ((nicknameUpdatePass oldNick newNick username hist).1).drop 1 ∧
    (match (nicknameUpdatePass oldNick newNick username hist).2 with
     | some r => r.description =
        "**Old Nick:** " ++ jsOrDefault oldNick "None" ++
          "\n**New Nick:** " ++ jsOrDefault newNick "None" ++
          "\n\n**Past Nicknames:** " ++ String.intercalate ", "
            (((nicknameUpdatePass oldNick newNick username hist).1).drop 1)
     | none => False) := by
  have hrec : recordNickname (jsOrDefault newNick username) hist =
      jsOrDefault newNick username :: hist.take 19 := by
    unfold recordNickname
    rw [if_neg hne, if_neg hfresh, List.take_succ_cons]
  have hpass1 : (nicknameUpdatePass oldNick newNick username hist).1 =
      jsOrDefault newNick username :: hist.take 19 := by
    simp [nicknameUpdatePass, hch, hrec]
  have hpass2 : (nicknameUpdatePass oldNick newNick username hist).2 =
      some { title := "📝 Nickname Changed (History Recorded)",
             description := "**Old Nick:** " ++ jsOrDefault oldNick "None" ++
               "\n**New Nick:** " ++ jsOrDefault newNick "None" ++
               "\n\n**Past Nicknames:** " ++ getNicknameHistory
                 (jsOrDefault newNick username :: hist.take 19),
             color := ColorsBlue } := by
    simp [nicknameUpdatePass, hch, hrec]
  refine ⟨?_, ?_, ?_, ?_⟩
  · rw [hpass1, List.take_succ_cons]
  · rw [hpass1]
    rfl
  · rw [hpass1]
    intro hmem
    exact hfresh (List.take_subset 19 hist (by simpa using hmem))
  · rw [hpass2, hpass1]
    simp [getNicknameHistory]

theorem C9_amended_past_nicknames_witness :
    ((none : Option String) == some "y") = false ∧
    jsOrDefault (some "y") "user" ∉ (["x"] : List String) ∧
    jsOrDefault (some "y") "user" ≠ "" ∧
    ((nicknameUpdatePass none (some "y") "user" ["x"]).1 =
      (jsOrDefault (some "y") "user" :: ["x"]).take 20 ∧
    ((nicknameUpdatePass none (some "y") "user" ["x"]).1).head? =
      some (jsOrDefault (some "y") "user") ∧
    jsOrDefault (some "y") "user" ∉
      ((nicknameUpdatePass none (some "y") "user" ["x"]).1).drop 1 ∧
    (match (nicknameUpdatePass none (some "y") "user" ["x"]).2 with
     | some r => r.description =
        "**Old Nick:** " ++ jsOrDefault none "None" ++
          "\n**New Nick:** " ++ jsOrDefault (some "y") "None" ++
          "\n\n**Past Nicknames:** " ++ String.intercalate ", "
            (((nicknameUpdatePass none (some "y") "user" ["x"]).1).drop 1)
     | none => False)) :=
  ⟨rfl, by decide, by decide,
   C9_amended_past_nicknames none (some "y") "user" ["x"] rfl (by decide)
     (by decide)⟩

/-- C10: for a guild with no entry in the config store, `logEvent` returns
before fetching any channel or sending anything and leaves the whole process
state (config store, nickname history, invite snapshots) unchanged. -/
theorem C10_unconfigured_guild_noop (st : ProcState) (g : String)
    (d : DeliveryResult) (h : List.lookup g st.guildConfigMem = none) :
    logEvent st g d = (st, false) := by
  simp only [logEvent, h]

/-- Concrete state for the C10 witness: a config store with an entry for a
different guild only. -/
def stC10 : ProcState :=
  { guildConfigMem := [("other", "c9")], guildConfigDisk := [("other", "c9")],
    nicknameHistoryMem := [("other", [("u", ["n1"])])],
    nicknameHistoryDisk := [], invitesCache := [("other", [("inv", 3)])] }

theorem C10_unconfigured_guild_noop_witness :
    List.lookup "g2" stC10.guildConfigMem = none ∧
    logEvent stC10 "g2" DeliveryResult.delivered = (stC10, false) :=
  ⟨by decide, C10_unconfigured_guild_noop stC10 "g2" DeliveryResult.delivered
    (by decide)⟩
